import Mathlib

/-!
Verification of the icp-dex-prices-notifier reference implementation.

Numeric values computed by the Python code with `float` arithmetic are
modelled as rationals (`ℚ`); the only exponentiation the code performs has
the exact integral exponent `12 / 6 = 2`, so rational arithmetic is exact.
Python expressions that can raise (the unguarded division by the staking
rate) are modelled with `Except String`; dictionaries are modelled as
association lists where the most recent insertion shadows older bindings
(lookup finds the first matching key).
-/

namespace ICPDex

/-! ## `src/core/waterneuron_client.py` -/

/-- Raw fields of a successful WaterNeuron `/api/nicp` response:
`total_supply` and the `icpswap` pool balances `icp` / `nicp`,
all in e8s units (`data.get(..., 0)` defaults model missing keys as 0). -/
structure WNApiResponse where
  total_supply : ℚ
  icp : ℚ
  nicp : ℚ
  deriving Repr, DecidableEq

/-- The dictionary built by `WaterNeuronClient._parse_api_response`. -/
structure ParsedExchangeRate where
  success : Bool
  source : String
  nicp_to_icp_rate : ℚ
  icp_to_nicp_rate : ℚ
  total_supply : ℚ
  icp_balance : ℚ
  nicp_balance : ℚ
  pool_quotient : ℚ
  deriving Repr, DecidableEq

/-- `WaterNeuronClient._parse_api_response`: converts the e8s balances to
token units (division by `1e8`), but substitutes the hardcoded constant
`0.9001` ("from the screenshot") as the exchange rate instead of deriving
it from the pool balances.  (`pool_quotient` embeds the `pool_ratio` entry
of the nested `icpswap_pool` dictionary.) -/
def _parse_api_response (data : WNApiResponse) : ParsedExchangeRate :=
  let total_supply_tokens := data.total_supply / 100000000
  let icp_balance_tokens := data.icp / 100000000
  let nicp_balance_tokens := data.nicp / 100000000
  let nicp_to_icp_rate : ℚ := 9001 / 10000
  let icp_to_nicp_rate : ℚ := 1 / nicp_to_icp_rate
  { success := true
    source := "waterneuron_api"
    nicp_to_icp_rate := nicp_to_icp_rate
    icp_to_nicp_rate := icp_to_nicp_rate
    total_supply := total_supply_tokens
    icp_balance := icp_balance_tokens
    nicp_balance := nicp_balance_tokens
    pool_quotient :=
      if icp_balance_tokens > 0 then nicp_balance_tokens / icp_balance_tokens else 0 }

/-! ## `src/core/nicp_arbitrage_client.py` -/

/-- The slice of the WaterNeuron result dictionary consulted by
`calculate_arbitrage_opportunity`: the `success` flag and the (possibly
absent) `nicp_to_icp_rate` entry. -/
structure WNData where
  success : Bool
  nicp_to_icp_rate : Option ℚ
  deriving Repr, DecidableEq

/-- Default `DIRECT_STAKING_RATE` of `NICPArbitrageClient` (1 ICP = 0.9001 nICP). -/
def DIRECT_STAKING_RATE : ℚ := 9001 / 10000

/-- `DISSOLUTION_MONTHS` constant of `NICPArbitrageClient`. -/
def DISSOLUTION_MONTHS : ℕ := 6

/-- The staking rate actually used by `calculate_arbitrage_opportunity`:
`waterneuron_data and waterneuron_data.get('success') and
waterneuron_data.get('nicp_to_icp_rate')` (Python truthiness: an absent
dictionary, a falsy `success`, a missing rate and a rate of `0.0` all fall
back to the instance's `DIRECT_STAKING_RATE`). -/
def effective_staking_rate (direct_staking_rate : ℚ) (wd : Option WNData) : ℚ :=
  match wd with
  | none => direct_staking_rate
  | some d =>
    if d.success then
      match d.nicp_to_icp_rate with
      | none => direct_staking_rate
      | some x => if x = 0 then direct_staking_rate else x
    else direct_staking_rate

/-- `_get_arbitrage_recommendation`. -/
def _get_arbitrage_recommendation (profit_percentage : ℚ) : String :=
  if profit_percentage ≥ 20 then "EXCELLENT - Very high arbitrage opportunity!"
  else if profit_percentage ≥ 15 then "GREAT - Strong arbitrage opportunity!"
  else if profit_percentage ≥ 10 then "GOOD - Solid arbitrage opportunity"
  else if profit_percentage ≥ 5 then "MODERATE - Decent arbitrage opportunity"
  else "POOR - Not recommended"

/-- The full result dictionary of a successful
`calculate_arbitrage_opportunity` call. -/
structure ArbOk where
  viable : Bool
  cost_per_nicp_icp : ℚ
  future_icp_per_nicp : ℚ
  profit_per_nicp_icp : ℚ
  profit_percentage_6m : ℚ
  annualized_return : ℚ
  dissolution_months : ℕ
  direct_staking_rate : ℚ
  recommendation : String
  deriving Repr, DecidableEq

/-- Result of `calculate_arbitrage_opportunity`: either the early-return
dictionary `{'viable': False, 'error': ...}` or the full result. -/
inductive ArbResult where
  | invalid (error : String)
  | ok (r : ArbOk)
  deriving Repr, DecidableEq

/-- The `viable` entry of an arbitrage result dictionary. -/
def ArbResult.viable : ArbResult → Bool
  | .invalid _ => false
  | .ok r => r.viable

/-- `NICPArbitrageClient.calculate_arbitrage_opportunity`.  A raised
`ZeroDivisionError` (the division `1.0 / current_staking_rate` is
unguarded) is modelled as `Except.error`.  The division by
`cost_per_nicp` cannot raise because the guard ensures it is positive. -/
def calculate_arbitrage_opportunity (direct_staking_rate : ℚ)
    (nicp_price_in_icp : ℚ) (wd : Option WNData) : Except String ArbResult :=
  if nicp_price_in_icp ≤ 0 then
    .ok (.invalid "Invalid nICP price")
  else
    let current_staking_rate := effective_staking_rate direct_staking_rate wd
    if current_staking_rate = 0 then
      .error "ZeroDivisionError"
    else
      let cost_per_nicp := nicp_price_in_icp
      let future_icp_per_nicp := 1 / current_staking_rate
      let profit_per_nicp := future_icp_per_nicp - cost_per_nicp
      let profit_percentage := profit_per_nicp / cost_per_nicp * 100
      let period_return_rate := profit_percentage / 100
      -- periods_per_year = 12 / DISSOLUTION_MONTHS = 2 (exact)
      let annualized_return := ((1 + period_return_rate) ^ (2 : ℕ) - 1) * 100
      let is_viable := decide (profit_percentage > 5)
      .ok (.ok
        { viable := is_viable
          cost_per_nicp_icp := cost_per_nicp
          future_icp_per_nicp := future_icp_per_nicp
          profit_per_nicp_icp := profit_per_nicp
          profit_percentage_6m := profit_percentage
          annualized_return := annualized_return
          dissolution_months := DISSOLUTION_MONTHS
          direct_staking_rate := current_staking_rate
          recommendation := _get_arbitrage_recommendation profit_percentage })

/-! ## Claims C1, C3, C9, C10 -/

/-- C1: for every positive nICP price and every nonzero effective staking
rate `r`, `calculate_arbitrage_opportunity` returns a result with
`cost_per_nicp_icp` equal to the price, `future_icp_per_nicp = 1/r`,
`profit_percentage_6m` equal to the profit ratio times 100, `viable` true
iff that percentage exceeds 5, `dissolution_months = 6`, and
`annualized_return` given by the compound formula
`((1 + ratio)^(12/6) - 1) * 100` — which differs from the linear
scale-up `ratio * (12/6) * 100` whenever the ratio is nonzero. -/
theorem arbitrage_fields_correct (d p r : ℚ) (wd : Option WNData)
    (hp : 0 < p) (hr : effective_staking_rate d wd = r) (hr0 : r ≠ 0) :
    ∃ res : ArbOk,
      calculate_arbitrage_opportunity d p wd = Except.ok (ArbResult.ok res) ∧
      res.cost_per_nicp_icp = p ∧
      res.future_icp_per_nicp = 1 / r ∧
      res.profit_percentage_6m = (1 / r - p) / p * 100 ∧
      (res.viable = true ↔ (1 / r - p) / p * 100 > 5) ∧
      res.dissolution_months = 6 ∧
      res.annualized_return = ((1 + (1 / r - p) / p) ^ (2 : ℕ) - 1) * 100 ∧
      ((1 / r - p) / p ≠ 0 →
        res.annualized_return ≠ (1 / r - p) / p * (12 / 6) * 100) := by
  have hnp : ¬ p ≤ 0 := not_le.mpr hp
  unfold calculate_arbitrage_opportunity
  rw [if_neg hnp, hr, if_neg hr0]
  refine ⟨_, rfl, rfl, rfl, rfl, ?_, rfl, ?_, ?_⟩
  · exact decide_eq_true_iff
  · show ((1 + (1 / r - p) / p * 100 / 100) ^ (2:ℕ) - 1) * 100 =
      ((1 + (1 / r - p) / p) ^ (2:ℕ) - 1) * 100
    ring
  · intro hx hcontra
    apply hx
    have hc : ((1 + (1 / r - p) / p * 100 / 100) ^ (2:ℕ) - 1) * 100 =
        (1 / r - p) / p * (12 / 6) * 100 := hcontra
    have h2 : ((1 / r - p) / p) ^ 2 * 100 = 0 := by linear_combination hc
    have h3 : ((1 / r - p) / p) ^ 2 = 0 := by linarith
    exact sq_eq_zero_iff.mp h3

/-- C1 witness: instantiation at price 1/2 and the default staking rate. -/
theorem arbitrage_fields_correct_witness :
    (0:ℚ) < 1/2 ∧ effective_staking_rate DIRECT_STAKING_RATE none = 9001/10000 ∧
    (9001/10000 : ℚ) ≠ 0 ∧
    ∃ res : ArbOk,
      calculate_arbitrage_opportunity DIRECT_STAKING_RATE (1/2) none =
        Except.ok (ArbResult.ok res) ∧
      res.cost_per_nicp_icp = 1/2 ∧
      res.future_icp_per_nicp = 1 / (9001/10000) ∧
      res.profit_percentage_6m = ((1:ℚ) / (9001/10000) - 1/2) / (1/2) * 100 ∧
      (res.viable = true ↔ ((1:ℚ) / (9001/10000) - 1/2) / (1/2) * 100 > 5) ∧
      res.dissolution_months = 6 ∧
      res.annualized_return = ((1 + ((1:ℚ) / (9001/10000) - 1/2) / (1/2)) ^ (2 : ℕ) - 1) * 100 ∧
      (((1:ℚ) / (9001/10000) - 1/2) / (1/2) ≠ 0 →
        res.annualized_return ≠ ((1:ℚ) / (9001/10000) - 1/2) / (1/2) * (12 / 6) * 100) :=
  ⟨by norm_num, rfl, by norm_num,
    arbitrage_fields_correct DIRECT_STAKING_RATE (1/2) (9001/10000) none
      (by norm_num) rfl (by norm_num)⟩

/-- C3: for every non-positive nICP price and arbitrary WaterNeuron data,
`calculate_arbitrage_opportunity` returns (without raising) the early
dictionary `{'viable': False, 'error': 'Invalid nICP price'}`; no profit
fields are computed (the result is never the full `ArbResult.ok` form). -/
theorem invalid_price_result (d p : ℚ) (wd : Option WNData) (hp : p ≤ 0) :
    calculate_arbitrage_opportunity d p wd =
      Except.ok (ArbResult.invalid "Invalid nICP price") ∧
    (ArbResult.invalid "Invalid nICP price").viable = false ∧
    ∀ res : ArbOk,
      calculate_arbitrage_opportunity d p wd ≠ Except.ok (ArbResult.ok res) := by
  refine ⟨?_, rfl, ?_⟩
  · unfold calculate_arbitrage_opportunity
    rw [if_pos hp]
  · intro res hres
    unfold calculate_arbitrage_opportunity at hres
    rw [if_pos hp] at hres
    simp at hres

/-- C3 witness: instantiation at price 0 with rate-0 WaterNeuron data
(showing the guard also pre-empts the division). -/
theorem invalid_price_result_witness :
    calculate_arbitrage_opportunity DIRECT_STAKING_RATE 0 (some ⟨true, some 0⟩) =
      Except.ok (ArbResult.invalid "Invalid nICP price") ∧
    (ArbResult.invalid "Invalid nICP price").viable = false ∧
    ∀ res : ArbOk,
      calculate_arbitrage_opportunity DIRECT_STAKING_RATE 0 (some ⟨true, some 0⟩) ≠
        Except.ok (ArbResult.ok res) :=
  invalid_price_result DIRECT_STAKING_RATE 0 (some ⟨true, some 0⟩) le_rfl

/-- C9: the parsed exchange rate does not depend on the pool balances:
any two responses parse to the same `nicp_to_icp_rate`, namely the
hardcoded constant `0.9001`; the response is always marked successful and
the balances are merely divided by `10^8` and passed through. -/
theorem parse_rate_ignores_balances (d1 d2 : WNApiResponse) :
    (_parse_api_response d1).nicp_to_icp_rate =
      (_parse_api_response d2).nicp_to_icp_rate ∧
    (_parse_api_response d1).nicp_to_icp_rate = 9001 / 10000 ∧
    (_parse_api_response d1).success = true ∧
    (_parse_api_response d1).icp_balance = d1.icp / 100000000 ∧
    (_parse_api_response d1).nicp_balance = d1.nicp / 100000000 ∧
    (_parse_api_response d1).total_supply = d1.total_supply / 100000000 :=
  ⟨rfl, rfl, rfl, rfl, rfl, rfl⟩

/-- C10: given a positive price, `calculate_arbitrage_opportunity` raises
(models as `Except.error "ZeroDivisionError"`) exactly when the effective
staking rate is 0 — the division `1.0 / current_staking_rate` is the only
unguarded operation — and returns a result without raising for every
nonzero effective rate. -/
theorem division_unguarded (d p : ℚ) (wd : Option WNData) (hp : 0 < p) :
    (calculate_arbitrage_opportunity d p wd = Except.error "ZeroDivisionError" ↔
      effective_staking_rate d wd = 0) ∧
    (effective_staking_rate d wd ≠ 0 →
      ∃ res : ArbResult, calculate_arbitrage_opportunity d p wd = Except.ok res) := by
  have hnp : ¬ p ≤ 0 := not_le.mpr hp
  constructor
  · constructor
    · intro h
      by_contra hr
      unfold calculate_arbitrage_opportunity at h
      rw [if_neg hnp, if_neg hr] at h
      simp at h
    · intro h
      unfold calculate_arbitrage_opportunity
      rw [if_neg hnp, if_pos h]
  · intro hr
    unfold calculate_arbitrage_opportunity
    rw [if_neg hnp, if_neg hr]
    exact ⟨_, rfl⟩

/-- C10 witness: with direct rate 0 and no WaterNeuron data the call at
price 1 raises; with the default rate it succeeds. -/
theorem division_unguarded_witness :
    calculate_arbitrage_opportunity 0 1 none = Except.error "ZeroDivisionError" ∧
    ∃ res : ArbResult,
      calculate_arbitrage_opportunity DIRECT_STAKING_RATE 1 none = Except.ok res :=
  ⟨(division_unguarded 0 1 none (by norm_num)).1.mpr rfl,
   (division_unguarded DIRECT_STAKING_RATE 1 none (by norm_num)).2
     (by norm_num [effective_staking_rate, DIRECT_STAKING_RATE])⟩

/-! ## `src/core/api_client.py` : string helpers -/

/-- Python `str.upper()` (the identifiers involved are ASCII). -/
def pyUpper (s : String) : String := String.mk (s.toList.map Char.toUpper)

/-- Python slice `s[:n]`. -/
def strTake (s : String) (n : ℕ) : String := String.mk (s.toList.take n)

/-- Python slice `s[-n:]` (for `n ≤ len(s)`; shorter strings are returned
whole, as in Python). -/
def strTakeLast (s : String) (n : ℕ) : String :=
  String.mk ((s.toList.reverse.take n).reverse)

/-- Is `needle` a prefix of `hay`? (Helper for the Python `in` operator.) -/
def strStartsWith : List Char → List Char → Bool
  | _, [] => true
  | [], _ :: _ => false
  | a :: as, b :: bs => (a == b) && strStartsWith as bs

/-- Does `needle` occur contiguously in `hay`? (Python `needle in hay`.) -/
def strContainsSub : List Char → List Char → Bool
  | [], needle => needle.isEmpty
  | a :: t, needle => strStartsWith (a :: t) needle || strContainsSub t needle

/-- Python substring test `sub in s`. -/
def pyIn (sub s : String) : Bool := strContainsSub s.toList sub.toList

/-- Python dict lookup on a literal written as an ordered list of bindings:
a later binding for the same key overwrites an earlier one. -/
def pyDictLookup (m : List (String × String)) (k : String) : Option String :=
  m.foldl (fun acc p => if p.1 == k then some p.2 else acc) none

/-- The `canister_to_symbol` dict literal of
`APIClient._format_kongswap_ticker_data`, in source order (it contains
duplicate keys; Python keeps the last binding). -/
def canister_to_symbol : List (String × String) :=
  [("ryjl3-tyaaa-aaaaa-aaaba-cai", "ICP"),
   ("cngnf-vqaaa-aaaar-qag4q-cai", "ckUSDT"),
   ("xevnm-gaaaa-aaaar-qafnq-cai", "ckUSDC"),
   ("mxzaz-hqaaa-aaaar-qaada-cai", "ckBTC"),
   ("ss2fx-dyaaa-aaaar-qacoq-cai", "ckETH"),
   ("buwm7-7yaaa-aaaar-qagva-cai", "nICP"),
   ("np5km-uyaaa-aaaaq-aadrq-cai", "POKED"),
   ("4c4fd-caaaa-aaaaq-aaa3a-cai", "CLAY"),
   ("ck73f-syaaa-aaaam-qdtea-cai", "SCOTT"),
   ("qci3o-6iaaa-aaaam-qcvaa-cai", "SPANGE"),
   ("vurva-zqaaa-aaaak-quezq-cai", "MAPTF"),
   ("icaf7-3aaaa-aaaam-qcx3q-cai", "RUGGY"),
   ("zfcdd-tqaaa-aaaaq-aaaga-cai", "DKP"),
   ("mwen2-oqaaa-aaaam-adaca-cai", "nanas"),
   ("atuk3-uqaaa-aaaam-qduwa-cai", "IC"),
   ("2rqn6-kiaaa-aaaam-qcuya-cai", "MGSN"),
   ("iwv6l-6iaaa-aaaam-qcw2a-cai", "ELNA"),
   ("druyg-tyaaa-aaaam-qcw3a-cai", "WTN"),
   ("emww2-4yaaa-aaaam-qcw4a-cai", "ALPACALB"),
   ("ffi64-ziaaa-aaaam-qcw5a-cai", "DITTO"),
   ("fw6jm-nqaaa-aaaam-qcw6a-cai", "CTZ"),
   ("ixqp7-kqaaa-aaaam-qcw7a-cai", "DKP"),
   ("jcmow-hyaaa-aaaam-qcw8a-cai", "BITS"),
   ("k45jy-aiaaa-aaaam-qcw9a-cai", "PANDA"),
   ("kbvhp-rqaaa-aaaam-qcwaa-cai", "GLDGOV"),
   ("kknbx-zyaaa-aaaam-qcwba-cai", "TAL"),
   ("lkwrt-vyaaa-aaaam-qcwca-cai", "OGY"),
   ("lrtnw-paaaa-aaaam-qcwda-cai", "SONIC"),
   ("lrtnw-paaaa-aaaaq-aadfa-cai", "SONIC"),
   ("mih44-vaaaa-aaaam-qcwea-cai", "SNEED"),
   ("n6tkf-tqaaa-aaaam-qcwfa-cai", "NUANCE"),
   ("n6tkf-tqaaa-aaaal-qsneq-cai", "NUANCE"),
   ("o4zzi-qaaaa-aaaam-qcwga-cai", "CATALYZE"),
   ("o7oak-iyaaa-aaaam-qcwha-cai", "YRAL"),
   ("rh2pm-ryaaa-aaaan-qeniq-cai", "EXE"),
   ("sx3gz-hqaaa-aaaam-qcwia-cai", "CYCLES"),
   ("tyyy3-4aaaa-aaaam-qcwja-cai", "LBRY"),
   ("vi5vh-wyaaa-aaaam-qcwka-cai", "GLDT"),
   ("wkv3f-iiaaa-aaaam-qcwla-cai", "PARTY"),
   ("xsi2v-cyaaa-aaaam-qcwma-cai", "HOT"),
   ("ysy5f-2qaaa-aaaam-qcwna-cai", "BURN"),
   ("ysy5f-2qaaa-aaaap-qkmmq-cai", "BURN"),
   ("z3hpp-qaaaa-aaaam-qcwoa-cai", "NTN"),
   ("2ouva-viaaa-aaaam-qcwpa-cai", "SEERS"),
   ("5kijx-siaaa-aaaam-qcwqa-cai", "WUMBO"),
   ("6c7su-kiaaa-aaaam-qcwra-cai", "DOLR"),
   ("7pail-xaaaa-aaaam-qcwsa-cai", "BOB"),
   ("7pail-xaaaa-aaaas-aabmq-cai", "BOB"),
   ("7xkvf-zyaaa-aaaam-qcwta-cai", "PEPE"),
   ("4k7jk-vyaaa-aaaam-qcwua-cai", "DSCVR"),
   ("n6tkf-tqaaa-aaaal-qsneq-cai", "cICP"),
   ("ysy5f-2qaaa-aaaap-qkmmq-cai", "ALEX"),
   ("lrtnw-paaaa-aaaaq-aadfa-cai", "SWAMP"),
   ("pcj6u-uaaaa-aaaak-aewnq-cai", "CLOUD"),
   ("f54if-eqaaa-aaaaq-aacea-cai", "NTN")]

/-- `get_readable_symbol` (the local function defined inside
`_format_kongswap_ticker_data`): table lookup with placeholder fallback. -/
def get_readable_symbol (canister_id : String) : String :=
  match pyDictLookup canister_to_symbol canister_id with
  | some sym => sym
  | none =>
    if canister_id.length > 20 then
      strTake canister_id 5 ++ "..." ++ strTakeLast canister_id 3
    else
      strTake canister_id 8 ++ "..."

/-- The spec's description of symbol resolution, written from the spec's
words: the mapped symbol when present in the static table, otherwise
`"{first 5 chars}...{last 3 chars}"` when the identifier is longer than 20
characters, else `"{first 8 chars}..."`. -/
def resolve_spec (identifier : String) : String :=
  (pyDictLookup canister_to_symbol identifier).getD
    (if identifier.length > 20 then
      strTake identifier 5 ++ "..." ++ strTakeLast identifier 3
    else
      strTake identifier 8 ++ "...")

/-- C8: `get_readable_symbol` is a total deterministic function agreeing
everywhere with the spec's resolution rule (mapped symbol for identifiers
in the static table, otherwise the length-dependent placeholder); two
calls with the same identifier give the same string, and totality in Lean
rules out raising. -/
theorem get_readable_symbol_total_deterministic (identifier : String) :
    get_readable_symbol identifier = resolve_spec identifier ∧
    get_readable_symbol identifier = get_readable_symbol identifier := by
  refine ⟨?_, rfl⟩
  unfold get_readable_symbol resolve_spec
  cases pyDictLookup canister_to_symbol identifier <;> rfl

/-! ## `src/core/api_client.py` : ICPSwap and KongSwap price maps

The canonical map of pairs is an association list in which the most
recent insertion is consed at the front, so `List.lookup` (first match)
realizes Python's key-overwrite semantics.  The `raw_data` payload
(a JSON echo of the source record) is not modelled. -/

/-- A value of the canonical pair map returned by `find_icp_pairs` /
`get_icp_prices`. -/
structure PricePair where
  price : ℚ
  volume_24h : ℚ
  volume_24h_usd : ℚ
  liquidity_usd : ℚ
  base_volume : ℚ
  target_volume : ℚ
  source : String
  deriving Repr, DecidableEq

/-- A raw ICPSwap ticker record.  `ticker_name_present` models
`'ticker_name' in item`; the two currency fields are `Option` because the
code tests key presence before `item.get(..., '')`; numeric fields model
`float(item.get(..., 0))`. -/
structure ICPSwapItem where
  ticker_name_present : Bool
  base_currency : Option String
  target_currency : Option String
  last_price : ℚ
  base_volume_24H : ℚ
  target_volume_24H : ℚ
  volume_usd_24H : ℚ
  liquidity_in_usd : ℚ
  base_volume : ℚ
  target_volume : ℚ
  deriving Repr, DecidableEq

/-- Default `target_pairs` of `find_icp_pairs`. -/
def default_target_pairs : List String := ["ICP/nICP", "ICP/USD", "ICP/USDT", "ICP/USDC"]

/-- The dictionary value `find_icp_pairs` stores for an admitted item. -/
def mkPricePair (item : ICPSwapItem) : PricePair :=
  { price := item.last_price
    volume_24h := item.base_volume_24H + item.target_volume_24H
    volume_24h_usd := item.volume_usd_24H
    liquidity_usd := item.liquidity_in_usd
    base_volume := item.base_volume
    target_volume := item.target_volume
    source := "icpswap" }

/-- Pair-name construction of `find_icp_pairs`: `"ICP/{target}"` when the
base is ICP, `"{base}/ICP"` when the target is, otherwise no ICP pair. -/
def icpPairName (base target : String) : Option String :=
  if base = "ICP" then some ("ICP/" ++ target)
  else if target = "ICP" then some (base ++ "/ICP")
  else none

/-- One iteration of the `find_icp_pairs` loop over a raw item
(`found_pairs[pair_name] = {...}` is modelled by consing at the front). -/
def processICPSwapItem (target_pairs : List String)
    (m : List (String × PricePair)) (item : ICPSwapItem) : List (String × PricePair) :=
  if item.ticker_name_present ∧ item.base_currency.isSome ∧ item.target_currency.isSome then
    match icpPairName (pyUpper (item.base_currency.getD ""))
        (pyUpper (item.target_currency.getD "")) with
    | none => m
    | some pair_name =>
      if pair_name ∈ target_pairs ∨
          (["NICP", "USD", "USDT", "USDC"].any fun s => pyIn s pair_name) then
        -- volume > $500 OR (volume > $50 AND liquidity > $50000)
        if item.volume_usd_24H > 500 ∨
            (item.volume_usd_24H > 50 ∧ item.liquidity_in_usd > 50000) then
          (pair_name, mkPricePair item) :: m
        else m
      else m
  else m

/-- `APIClient.find_icp_pairs`. -/
def find_icp_pairs (data : List ICPSwapItem) (target_pairs : List String) :
    List (String × PricePair) :=
  data.foldl (processICPSwapItem target_pairs) []

/-- A raw KongSwap `/api/coingecko/tickers` record (missing keys default
to `''` / `0` as in the code's `.get` calls). -/
structure KongTicker where
  base_currency : String
  target_currency : String
  last_price : ℚ
  base_volume : ℚ
  target_volume : ℚ
  liquidity_in_usd : ℚ
  deriving Repr, DecidableEq

/-- A formatted pair produced by `_format_kongswap_ticker_data`. -/
structure KongFormatted where
  pair : String
  price : ℚ
  volume_24h : ℚ
  liquidity : ℚ
  source : String
  deriving Repr, DecidableEq

/-- The `known_symbols` set literal of `_format_kongswap_ticker_data`. -/
def known_symbols : List String :=
  ["ICP", "ckUSDT", "ckUSDC", "ckBTC", "ckETH", "nICP", "NICP",
   "POKED", "CLAY", "SCOTT", "SPANGE", "MAPTF", "RUGGY", "DKP",
   "nanas", "IC", "MGSN", "EXE", "BOB", "cICP", "ALEX", "SWAMP",
   "CLOUD", "NTN",
   "ELNA", "WTN", "ALPACALB", "DITTO", "CTZ", "BITS", "PANDA",
   "GLDGOV", "TAL", "OGY", "SONIC", "SNEED", "NUANCE", "CATALYZE",
   "YRAL", "CYCLES", "LBRY", "GLDT", "PARTY", "HOT", "BURN",
   "SEERS", "WUMBO", "DOLR", "PEPE", "DSCVR"]

/-- USD volume estimation of `_format_kongswap_ticker_data`
(`icp_price = 4.78`, `usdt_price = 1.0`). -/
def kongVolumeUsd (t : KongTicker) : ℚ :=
  if t.target_currency = "ryjl3-tyaaa-aaaaa-aaaba-cai" then t.target_volume * (478 / 100)
  else if t.base_currency = "ryjl3-tyaaa-aaaaa-aaaba-cai" then t.base_volume * (478 / 100)
  else if t.target_currency = "cngnf-vqaaa-aaaar-qag4q-cai" then t.target_volume * 1
  else if t.base_currency = "cngnf-vqaaa-aaaar-qag4q-cai" then t.base_volume * 1
  else min t.base_volume t.target_volume

/-- The per-ticker body of `_format_kongswap_ticker_data` (a `continue`
is `none`). -/
def formatKongTicker (t : KongTicker) : Option KongFormatted :=
  if t.base_currency = "" ∨ t.target_currency = "" then none
  else
    let base_symbol := get_readable_symbol t.base_currency
    let target_symbol := get_readable_symbol t.target_currency
    let pair_name := base_symbol ++ "/" ++ target_symbol
    let volume_24h_usd := kongVolumeUsd t
    if ¬((base_symbol ∈ known_symbols ∨ target_symbol ∈ known_symbols) ∨
        volume_24h_usd > 10000) then none
    else if volume_24h_usd < 100 then none
    else some
      { pair := pair_name
        price := t.last_price
        volume_24h := volume_24h_usd
        liquidity := t.liquidity_in_usd
        source := "KongSwap" }

/-- `APIClient._format_kongswap_ticker_data`. -/
def _format_kongswap_ticker_data (tickers : List KongTicker) : List KongFormatted :=
  tickers.filterMap formatKongTicker

/-- The ICPSwap-compatible record `get_icp_prices` builds from a formatted
KongSwap pair. -/
def kongToCanonical (pd : KongFormatted) : PricePair :=
  { price := pd.price
    volume_24h := pd.volume_24h
    volume_24h_usd := pd.volume_24h
    liquidity_usd := pd.liquidity
    base_volume := pd.volume_24h / 2
    target_volume := pd.volume_24h / 2
    source := "kongswap" }

/-- One iteration of the KongSwap merge loop in `get_icp_prices`. -/
def kongInsert (m : List (String × PricePair)) (pd : KongFormatted) :
    List (String × PricePair) :=
  if pd.pair ≠ "" then (pd.pair, kongToCanonical pd) :: m else m

/-- `APIClient.get_icp_prices`, parameterized by the two raw batches
(`None` models an unavailable ICPSwap response; the KongSwap tickers
endpoint — the path the claims cite — is modelled). -/
def get_icp_prices (icpswap_data : Option (List ICPSwapItem))
    (kong_tickers : List KongTicker) : List (String × PricePair) :=
  let all_pairs := match icpswap_data with
    | some d => find_icp_pairs d default_target_pairs
    | none => []
  (_format_kongswap_ticker_data kong_tickers).foldl kongInsert all_pairs

/-! ### Lookup lemmas for the canonical map -/

/-- Anything found in the map after one `find_icp_pairs` iteration was
already there or is the freshly admitted record, which passed the
activity filter. -/
theorem processICPSwapItem_lookup (tps : List String) (m : List (String × PricePair))
    (item : ICPSwapItem) (k : String) (pp : PricePair)
    (h : (processICPSwapItem tps m item).lookup k = some pp) :
    m.lookup k = some pp ∨
      (pp = mkPricePair item ∧
        (item.volume_usd_24H > 500 ∨
          (item.volume_usd_24H > 50 ∧ item.liquidity_in_usd > 50000))) := by
  unfold processICPSwapItem at h
  split at h
  · split at h
    · exact Or.inl h
    · split at h
      · split at h
        · next hact =>
          simp only [List.lookup] at h
          split at h
          · exact Or.inr ⟨(Option.some.inj h).symm, hact⟩
          · exact Or.inl h
        · exact Or.inl h
      · exact Or.inl h
  · exact Or.inl h

/-- Anything found in the `find_icp_pairs` fold starting from `m` was in
`m` or comes from an admitted item of the batch. -/
theorem find_icp_pairs_fold_lookup (data : List ICPSwapItem) :
    ∀ (tps : List String) (m : List (String × PricePair)) (k : String) (pp : PricePair),
      (data.foldl (processICPSwapItem tps) m).lookup k = some pp →
      m.lookup k = some pp ∨
        ∃ item ∈ data, pp = mkPricePair item ∧
          (item.volume_usd_24H > 500 ∨
            (item.volume_usd_24H > 50 ∧ item.liquidity_in_usd > 50000)) := by
  induction data with
  | nil => exact fun tps m k pp h => Or.inl h
  | cons i rest ih =>
    intro tps m k pp h
    rw [List.foldl_cons] at h
    rcases ih tps _ k pp h with h1 | ⟨j, hj, hpp⟩
    · rcases processICPSwapItem_lookup tps m i k pp h1 with h2 | hpp
      · exact Or.inl h2
      · exact Or.inr ⟨i, List.mem_cons_self i rest, hpp⟩
    · exact Or.inr ⟨j, List.mem_cons_of_mem i hj, hpp⟩

/-- Anything found after one KongSwap merge insertion was already in the
map or is the converted formatted pair. -/
theorem kongInsert_lookup (m : List (String × PricePair)) (pd : KongFormatted)
    (k : String) (pp : PricePair) (h : (kongInsert m pd).lookup k = some pp) :
    m.lookup k = some pp ∨ pp = kongToCanonical pd := by
  unfold kongInsert at h
  split at h
  · simp only [List.lookup] at h
    split at h
    · exact Or.inr (Option.some.inj h).symm
    · exact Or.inl h
  · exact Or.inl h

/-- Anything found in the KongSwap merge fold was already in the base map
or comes from a formatted pair of the list. -/
theorem foldl_kongInsert_lookup (pds : List KongFormatted) :
    ∀ (m : List (String × PricePair)) (k : String) (pp : PricePair),
      (pds.foldl kongInsert m).lookup k = some pp →
      m.lookup k = some pp ∨ ∃ pd ∈ pds, pp = kongToCanonical pd := by
  induction pds with
  | nil => exact fun m k pp h => Or.inl h
  | cons pd rest ih =>
    intro m k pp h
    rw [List.foldl_cons] at h
    rcases ih _ k pp h with h1 | ⟨q, hq, hpp⟩
    · rcases kongInsert_lookup m pd k pp h1 with h2 | hpp
      · exact Or.inl h2
      · exact Or.inr ⟨pd, List.mem_cons_self pd rest, hpp⟩
    · exact Or.inr ⟨q, List.mem_cons_of_mem pd hq, hpp⟩

/-- A formatted KongSwap pair carries the raw ticker's `last_price`
verbatim and has USD volume at least 100. -/
theorem formatKongTicker_fields (t : KongTicker) (pd : KongFormatted)
    (h : formatKongTicker t = some pd) :
    pd.price = t.last_price ∧ 100 ≤ pd.volume_24h ∧ pd.volume_24h = kongVolumeUsd t := by
  simp only [formatKongTicker] at h
  split at h
  · exact absurd h (by simp)
  · split at h
    · exact absurd h (by simp)
    · split at h
      · exact absurd h (by simp)
      · next hv =>
        cases Option.some.inj h
        exact ⟨rfl, le_of_not_lt hv, rfl⟩

/-! ### Claims C2 and C7 -/

/-- A raw ICPSwap record with a missing/zero `last_price` but high USD
volume: `{'ticker_name': ..., 'base_currency': 'ICP',
'target_currency': 'USDC', 'volume_usd_24H': 1000}`. -/
def c2_item : ICPSwapItem :=
  { ticker_name_present := true
    base_currency := some "ICP"
    target_currency := some "USDC"
    last_price := 0
    base_volume_24H := 0
    target_volume_24H := 0
    volume_usd_24H := 1000
    liquidity_in_usd := 0
    base_volume := 0
    target_volume := 0 }

/-- Concrete evaluation: the zero-price record is admitted. -/
theorem c2_map_eval :
    find_icp_pairs [c2_item] default_target_pairs = [("ICP/USDC", mkPricePair c2_item)] := by
  have h1 : find_icp_pairs [c2_item] default_target_pairs =
      (if (1000 : ℚ) > 500 ∨ ((1000 : ℚ) > 50 ∧ (0 : ℚ) > 50000) then
        [("ICP/USDC", mkPricePair c2_item)]
      else []) := rfl
  rw [h1, if_pos (by norm_num)]

/-- C2 counterexample: a ticker batch whose only record has
`last_price = 0` (missing price) and `volume_usd_24H = 1000` is admitted
into the canonical map by `find_icp_pairs` with `price = 0`, so the
invariant "every admitted `PricePair` has `price > 0`" is violated —
no positivity filter exists on this path. -/
theorem admitted_pair_zero_price :
    (find_icp_pairs [c2_item] default_target_pairs).lookup "ICP/USDC" =
      some (mkPricePair c2_item) ∧
    ¬ (mkPricePair c2_item).price > 0 := by
  constructor
  · rw [c2_map_eval]
    rfl
  · show ¬ (0 : ℚ) > 0
    norm_num

/-- C2 amended: no price filter is applied on either admission path; the
`price` field of every pair in the canonical map of `get_icp_prices` is
copied verbatim from the `last_price` of some raw record of the ICPSwap
or KongSwap batch (and may therefore be 0 or negative). -/
theorem canonical_price_passthrough (icpswap : Option (List ICPSwapItem))
    (kong : List KongTicker) (k : String) (pp : PricePair)
    (h : (get_icp_prices icpswap kong).lookup k = some pp) :
    (∃ item ∈ icpswap.getD [], pp.price = item.last_price) ∨
    (∃ t ∈ kong, pp.price = t.last_price) := by
  unfold get_icp_prices at h
  rcases foldl_kongInsert_lookup _ _ _ _ h with h1 | ⟨pd, hpd, hpp⟩
  · cases icpswap with
    | none => exact absurd h1 (by simp)
    | some d =>
      left
      unfold find_icp_pairs at h1
      rcases find_icp_pairs_fold_lookup d _ _ k pp h1 with h2 | ⟨item, hi, hppi, _⟩
      · exact absurd h2 (by simp)
      · exact ⟨item, by simpa using hi, by rw [hppi]; rfl⟩
  · right
    obtain ⟨t, ht, hfmt⟩ := List.mem_filterMap.mp hpd
    refine ⟨t, ht, ?_⟩
    rw [hpp]
    exact (formatKongTicker_fields t pd hfmt).1

/-- C2 amended witness: the pass-through at the concrete zero-price batch. -/
theorem canonical_price_passthrough_witness :
    (∃ item ∈ (some [c2_item] : Option (List ICPSwapItem)).getD [],
      (mkPricePair c2_item).price = item.last_price) ∨
    (∃ t ∈ ([] : List KongTicker), (mkPricePair c2_item).price = t.last_price) :=
  canonical_price_passthrough (some [c2_item]) [] "ICP/USDC" (mkPricePair c2_item)
    (by rw [show get_icp_prices (some [c2_item]) [] =
          find_icp_pairs [c2_item] default_target_pairs from rfl, c2_map_eval]
        rfl)

/-- A KongSwap ticker paired with ckUSDT: USD volume 150, liquidity 0 —
enough to pass the KongSwap floor (volume ≥ $100) but failing both
disjuncts of the ICPSwap activity policy. -/
def c7_ticker : KongTicker :=
  { base_currency := "cngnf-vqaaa-aaaar-qag4q-cai"
    target_currency := "aaaaa-bbbbb-ccccc-ddddd-cai"
    last_price := 1
    base_volume := 150
    target_volume := 999999
    liquidity_in_usd := 0 }

/-- The formatted pair `_format_kongswap_ticker_data` produces for
`c7_ticker`. -/
def c7_pd : KongFormatted :=
  { pair := "ckUSDT/aaaaa...cai"
    price := 1
    volume_24h := 150 * 1
    liquidity := 0
    source := "KongSwap" }

/-- Concrete evaluation of the KongSwap formatting of `c7_ticker`. -/
theorem c7_format_eval : _format_kongswap_ticker_data [c7_ticker] = [c7_pd] := by
  have h1 : formatKongTicker c7_ticker =
      (if ¬(("ckUSDT" ∈ known_symbols ∨ "aaaaa...cai" ∈ known_symbols) ∨
            (150 * 1 : ℚ) > 10000) then none
       else if (150 * 1 : ℚ) < 100 then none
       else some c7_pd) := rfl
  have h2 : formatKongTicker c7_ticker = some c7_pd := by
    rw [h1, if_neg (not_not_intro (Or.inl (Or.inl (by decide)))), if_neg (by norm_num)]
  unfold _format_kongswap_ticker_data
  rw [List.filterMap_cons, h2]
  rfl

/-- C7 counterexample: with no ICPSwap data and the single ticker
`c7_ticker`, the canonical map of `get_icp_prices` contains a pair with
`volume_24h_usd = 150` and `liquidity_usd = 0`, violating both disjuncts
of the minimum-activity policy. -/
theorem canonical_pair_violates_policy :
    (get_icp_prices none [c7_ticker]).lookup "ckUSDT/aaaaa...cai" =
      some (kongToCanonical c7_pd) ∧
    ¬((kongToCanonical c7_pd).volume_24h_usd > 500 ∨
      ((kongToCanonical c7_pd).volume_24h_usd > 50 ∧
        (kongToCanonical c7_pd).liquidity_usd > 50000)) := by
  constructor
  · have h3 : get_icp_prices none [c7_ticker] =
        [("ckUSDT/aaaaa...cai", kongToCanonical c7_pd)] := by
      unfold get_icp_prices
      rw [c7_format_eval]
      rfl
    rw [h3]
    rfl
  · show ¬((150 * 1 : ℚ) > 500 ∨ ((150 * 1 : ℚ) > 50 ∧ (0 : ℚ) > 50000))
    norm_num

/-- C7 amended: the minimum-activity policy
`volume > 500 ∨ (volume > 50 ∧ liquidity > 50000)` holds for every pair
contributed by the ICPSwap path (`find_icp_pairs`); the KongSwap path
guarantees only `volume_24h ≥ 100` for its formatted pairs, so the policy
does not extend to the full canonical map. -/
theorem activity_policy_per_path :
    (∀ (data : List ICPSwapItem) (tps : List String) (k : String) (pp : PricePair),
      (find_icp_pairs data tps).lookup k = some pp →
      pp.volume_24h_usd > 500 ∨ (pp.volume_24h_usd > 50 ∧ pp.liquidity_usd > 50000)) ∧
    (∀ (tickers : List KongTicker) (pd : KongFormatted),
      pd ∈ _format_kongswap_ticker_data tickers → 100 ≤ pd.volume_24h) := by
  constructor
  · intro data tps k pp h
    unfold find_icp_pairs at h
    rcases find_icp_pairs_fold_lookup data tps [] k pp h with h1 | ⟨item, _, hpp, hact⟩
    · exact absurd h1 (by simp)
    · rw [hpp]
      exact hact
  · intro tickers pd hmem
    obtain ⟨t, _, hfmt⟩ := List.mem_filterMap.mp hmem
    exact (formatKongTicker_fields t pd hfmt).2.1

/-- A healthy ICPSwap record ($600 volume) used to instantiate the
ICPSwap half of the amended policy claim. -/
def c7_item : ICPSwapItem :=
  { ticker_name_present := true
    base_currency := some "ICP"
    target_currency := some "USDT"
    last_price := 1 / 10
    base_volume_24H := 0
    target_volume_24H := 0
    volume_usd_24H := 600
    liquidity_in_usd := 0
    base_volume := 0
    target_volume := 0 }

/-- C7 amended witness: both halves applied at concrete inputs. -/
theorem activity_policy_per_path_witness :
    ((mkPricePair c7_item).volume_24h_usd > 500 ∨
      ((mkPricePair c7_item).volume_24h_usd > 50 ∧
        (mkPricePair c7_item).liquidity_usd > 50000)) ∧
    100 ≤ c7_pd.volume_24h :=
  ⟨activity_policy_per_path.1 [c7_item] default_target_pairs "ICP/USDT"
      (mkPricePair c7_item)
      (by
        have h1 : find_icp_pairs [c7_item] default_target_pairs =
            (if (600 : ℚ) > 500 ∨ ((600 : ℚ) > 50 ∧ (0 : ℚ) > 50000) then
              [("ICP/USDT", mkPricePair c7_item)]
            else []) := rfl
        rw [h1, if_pos (by norm_num)]
        rfl),
   activity_policy_per_path.2 [c7_ticker] c7_pd
      (by rw [c7_format_eval]; exact List.mem_singleton.mpr rfl)⟩

/-! ## `src/core/database.py` : price history -/

/-- A row of the `price_history` table (timestamps in whole seconds;
`raw_data`/`market_cap` are not consulted by the queried paths). -/
structure PriceRow where
  pair : String
  price : ℚ
  volume_24h : ℚ
  timestamp : ℤ
  deriving Repr, DecidableEq

/-- `ORDER BY timestamp ASC LIMIT 1`: the row with minimal timestamp
(first inserted wins on a tie, matching the index scan order). -/
def sqlMinByTimestamp (rows : List PriceRow) : Option PriceRow :=
  rows.foldl
    (fun acc r =>
      match acc with
      | none => some r
      | some b => if r.timestamp < b.timestamp then some r else some b)
    none

/-- `ORDER BY timestamp DESC LIMIT 1`: the row with maximal timestamp
(last inserted wins on a tie). -/
def sqlMaxByTimestamp (rows : List PriceRow) : Option PriceRow :=
  rows.foldl
    (fun acc r =>
      match acc with
      | none => some r
      | some b => if b.timestamp ≤ r.timestamp then some r else some b)
    none

/-- `Database.get_latest_price`: most recent stored observation for the
pair, with **no** window restriction. -/
def get_latest_price (rows : List PriceRow) (pair : String) : Option PriceRow :=
  sqlMaxByTimestamp (rows.filter fun r => r.pair == pair)

/-- `Database.get_price_change`: earliest observation within the trailing
window (`timestamp >= datetime('now', '-hours hours')`), compared against
the most recent observation overall; `None` when no in-window row exists,
when no row for the pair exists at all, or when the earliest price is 0. -/
def get_price_change (rows : List PriceRow) (now : ℤ) (pair : String) (hours : ℤ) :
    Option ℚ :=
  match sqlMinByTimestamp
      (rows.filter fun r => r.pair == pair && decide (now - hours * 3600 ≤ r.timestamp)) with
  | none => none
  | some old =>
    match get_latest_price rows pair with
    | none => none
    | some cur =>
      if old.price = 0 then none
      else some ((cur.price - old.price) / old.price * 100)

/-! ### Claim C5 -/

/-- A single stored observation at price 0.95. -/
def c5_row : PriceRow :=
  { pair := "ICP/USDT", price := 95 / 100, volume_24h := 0, timestamp := 0 }

/-- C5 counterexample: with exactly one observation in the window (fewer
than two), `get_price_change` returns `some 0` — the single row is both
the earliest in-window and the latest observation — instead of the `None`
the claim requires for fewer than two observations. -/
theorem single_observation_not_none :
    (([c5_row].filter fun r =>
        r.pair == "ICP/USDT" && decide ((0 : ℤ) - 24 * 3600 ≤ r.timestamp)).length = 1) ∧
    get_price_change [c5_row] 0 "ICP/USDT" 24 = some 0 := by
  constructor
  · rfl
  · have h1 : get_price_change [c5_row] 0 "ICP/USDT" 24 =
        (if (95 / 100 : ℚ) = 0 then none
         else some (((95 / 100 : ℚ) - 95 / 100) / (95 / 100) * 100)) := rfl
    rw [h1, if_neg (by norm_num)]
    norm_num

/-- C5 amended: `get_price_change` needs only **one** in-window
observation: it returns `None` exactly when the window query is empty,
when no row for the pair exists, or when the earliest in-window price is
zero; otherwise it returns `(latest - earliest)/earliest * 100`, where
the latest observation is the most recent overall (not necessarily
distinct from the earliest, so a single observation yields 0, and a
genuine zero change is returned as 0). -/
theorem get_price_change_characterization (rows : List PriceRow) (now : ℤ)
    (pair : String) (hours : ℤ) :
    (sqlMinByTimestamp
        (rows.filter fun r => r.pair == pair && decide (now - hours * 3600 ≤ r.timestamp)) =
          none →
      get_price_change rows now pair hours = none) ∧
    (∀ old cur : PriceRow,
      sqlMinByTimestamp
          (rows.filter fun r => r.pair == pair && decide (now - hours * 3600 ≤ r.timestamp)) =
        some old →
      get_latest_price rows pair = some cur →
      old.price ≠ 0 →
      get_price_change rows now pair hours =
        some ((cur.price - old.price) / old.price * 100)) := by
  constructor
  · intro h
    unfold get_price_change
    rw [h]
  · intro old cur h1 h2 h0
    unfold get_price_change
    rw [h1, h2]
    exact if_neg h0

/-- The second observation of the spec's worked example (0.95 then 0.97). -/
def c5_row2 : PriceRow :=
  { pair := "ICP/USDT", price := 97 / 100, volume_24h := 0, timestamp := 3600 }

/-- C5 amended witness: two observations 0.95 → 0.97 give
`(0.97 - 0.95)/0.95*100 = 40/19 ≈ +2.11%`. -/
theorem get_price_change_characterization_witness :
    get_price_change [c5_row, c5_row2] 3600 "ICP/USDT" 24 =
      some ((c5_row2.price - c5_row.price) / c5_row.price * 100) ∧
    (c5_row2.price - c5_row.price) / c5_row.price * 100 = 40 / 19 :=
  ⟨(get_price_change_characterization [c5_row, c5_row2] 3600 "ICP/USDT" 24).2
      c5_row c5_row2 rfl rfl (by show (95 / 100 : ℚ) ≠ 0; norm_num),
   by show ((97 / 100 : ℚ) - 95 / 100) / (95 / 100) * 100 = 40 / 19; norm_num⟩

/-! ## `src/core/alert_system.py` and the alert tables -/

/-- A row of the `user_alerts` table (the columns touched by
`log_alert_sent`). -/
structure AlertRow where
  id : ℕ
  last_triggered : Option ℤ
  trigger_count : ℕ
  deriving Repr, DecidableEq

/-- A row of the `alert_log` table. -/
structure AlertLogEntry where
  user_id : ℕ
  alert_id : ℕ
  pair : String
  message : String
  price : ℚ
  price_change : Option ℚ
  sent_at : ℤ
  deriving Repr, DecidableEq

/-- The durable alert state: the `alert_log` and `user_alerts` tables. -/
structure DBState where
  alert_log : List AlertLogEntry
  user_alerts : List AlertRow
  deriving Repr, DecidableEq

/-- `Database.log_alert_sent`: inserts an `alert_log` row and sets
`last_triggered = CURRENT_TIMESTAMP, trigger_count = trigger_count + 1`
on the alert row. -/
def log_alert_sent (st : DBState) (user_id alert_id : ℕ) (pair message : String)
    (price : ℚ) (price_change : Option ℚ) (now : ℤ) : DBState :=
  { alert_log :=
      st.alert_log ++ [⟨user_id, alert_id, pair, message, price, price_change, now⟩]
    user_alerts := st.user_alerts.map fun a =>
      if a.id = alert_id then
        { a with last_triggered := some now, trigger_count := a.trigger_count + 1 }
      else a }

/-- `AlertSystem.trigger_alert` restricted to its durable effect:
`send_alert_to_user`'s outcome is the input `send_success`, and
`log_alert_sent` runs **only when it is true**. -/
def trigger_alert (bot_available send_success : Bool) (st : DBState)
    (alert_id telegram_id user_id : ℕ) (pair message : String) (price : ℚ)
    (price_change : Option ℚ) (now : ℤ) : DBState :=
  if bot_available then
    if send_success then log_alert_sent st user_id alert_id pair message price price_change now
    else st
  else st

/-! ### Claim C4 -/

/-- A never-triggered alert row. -/
def c4_alert : AlertRow := { id := 1, last_triggered := none, trigger_count := 0 }

/-- Initial durable state holding only `c4_alert`. -/
def c4_state : DBState := { alert_log := [], user_alerts := [c4_alert] }

/-- C4 counterexample: when dispatch fails (`send_success = false`), the
durable state is completely unchanged — `last_triggered` stays `NULL` and
`trigger_count` stays 0 — contradicting the claim that the bookkeeping
still advances. -/
theorem dispatch_failure_skips_bookkeeping :
    trigger_alert true false c4_state 1 42 3 "ICP/USDT" "alert" 1 none 1000 = c4_state ∧
    (trigger_alert true false c4_state 1 42 3 "ICP/USDT" "alert" 1 none 1000).user_alerts.map
      AlertRow.trigger_count = [0] ∧
    (trigger_alert true false c4_state 1 42 3 "ICP/USDT" "alert" 1 none 1000).user_alerts.map
      AlertRow.last_triggered = [none] :=
  ⟨rfl, rfl, rfl⟩

/-- C4 amended: the durable bookkeeping advances **only** on successful
dispatch: a failed send (or an absent bot) leaves the state untouched,
while a successful send runs `log_alert_sent`, which stamps
`last_triggered = now` and increments `trigger_count` on the matching
alert row. -/
theorem alert_bookkeeping_on_success_only (bot send : Bool) (st : DBState)
    (aid tid uid : ℕ) (pair msg : String) (price : ℚ) (pc : Option ℚ) (now : ℤ) :
    trigger_alert bot false st aid tid uid pair msg price pc now = st ∧
    trigger_alert false send st aid tid uid pair msg price pc now = st ∧
    trigger_alert true true st aid tid uid pair msg price pc now =
      log_alert_sent st uid aid pair msg price pc now ∧
    (∀ a ∈ st.user_alerts, a.id = aid →
      ({ a with last_triggered := some now, trigger_count := a.trigger_count + 1 } : AlertRow) ∈
        (log_alert_sent st uid aid pair msg price pc now).user_alerts) := by
  refine ⟨?_, rfl, rfl, ?_⟩
  · cases bot <;> rfl
  · intro a ha hid
    simp only [log_alert_sent]
    exact List.mem_map.mpr ⟨a, ha, by simp [hid]⟩

/-- C4 amended witness: failure leaves `c4_state` unchanged; success
produces the stamped row. -/
theorem alert_bookkeeping_on_success_only_witness :
    trigger_alert true false c4_state 1 42 3 "p" "m" 1 none 1000 = c4_state ∧
    ({ c4_alert with
        last_triggered := some 1000
        trigger_count := c4_alert.trigger_count + 1 } : AlertRow) ∈
      (log_alert_sent c4_state 3 1 "p" "m" 1 none 1000).user_alerts :=
  ⟨(alert_bookkeeping_on_success_only true false c4_state 1 42 3 "p" "m" 1 none 1000).1,
   (alert_bookkeeping_on_success_only true false c4_state 1 42 3 "p" "m" 1 none 1000).2.2.2
     c4_alert (List.mem_singleton.mpr rfl) rfl⟩

/-! ### Claim C6 -/

/-- `AlertSystem.alert_cooldown` (300 s, "5 minutes" per the code). -/
def alert_cooldown : ℤ := 300

/-- Python `timedelta.seconds` for an elapsed time in whole seconds: the
normalized seconds-within-the-day component, `elapsed % 86400` (floor
modulus) — **not** the total elapsed seconds. -/
def timedeltaSecondsAttr (elapsed : ℤ) : ℤ := elapsed % 86400

/-- `AlertSystem.is_in_cooldown`: compares
`(now - last_alert_time).seconds` — the day-truncated component — with
the 300-second cooldown. -/
def is_in_cooldown (last_alerts : List (String × ℤ)) (cooldown_key : String)
    (now : ℤ) : Bool :=
  match last_alerts.lookup cooldown_key with
  | none => false
  | some t => decide (timedeltaSecondsAttr (now - t) < alert_cooldown)

/-- `AlertSystem.set_cooldown` (dict insert). -/
def set_cooldown (last_alerts : List (String × ℤ)) (cooldown_key : String)
    (now : ℤ) : List (String × ℤ) :=
  (cooldown_key, now) :: last_alerts

/-- The dispatch decision of `process_alert` at a second firing: after a
dispatch at `t1` recorded by `set_cooldown`, a firing of the same
`(user, pair, alert_type)` key at `t2` dispatches again iff the cooldown
check passes. -/
def second_dispatch_occurs (t1 t2 : ℤ) (key : String) : Bool :=
  !(is_in_cooldown (set_cooldown [] key t1) key t2)

/-- C6: the within-window half of the claim holds (a second firing 100 s
later is skipped, one 400 s later dispatches), but the after-window half
fails: a second firing 86410 s (1 day + 10 s) after the first — far more
than 300 s — is still skipped, because the code consults
`timedelta.seconds` (10) instead of the total elapsed time. -/
theorem cooldown_seconds_attribute_bug :
    ((86410 : ℤ) - 0 > 300) ∧
    second_dispatch_occurs 0 86410 "1_ICP/USDT_price_up" = false ∧
    second_dispatch_occurs 0 100 "1_ICP/USDT_price_up" = false ∧
    second_dispatch_occurs 0 400 "1_ICP/USDT_price_up" = true := by
  decide

end ICPDex
